import Mathlib

/-!
Shallow embedding of the clinic billing domain of `src/Q2.py`.

Python floats are modelled as exact rationals (`ℚ`); every numeric literal
appearing in the source (0.1, 0.075, 15.0, …) is decimal-exact as a rational.
Python integers are `ℤ`.  Fallible operations (a Python statement that can
raise) are modelled with `Option`/`Except`.  The file follows the first copy
of the classes in `Q2.py` (lines 1–318); the later copies are dead text
inside a string literal.
-/

/-- Embeds class `Medication` (Q2.py lines 5–62): a static drug record.
`code`, `name` are strings; the three numeric constructor arguments pass
through `float(...)` / `int(...)`, modelled as `ℚ`, `ℚ`, `ℤ`. -/
structure Medication where
  code : String
  name : String
  maximumDosageAllowedPerKg : ℚ
  dosageLimit : ℚ
  rateType : ℤ
deriving DecidableEq

/-- Embeds `Medication.recommendedDosage` (Q2.py lines 39–46):
`min(weight * maxDosagePerKg, dosageLimit)`, halved when `age <= 12`. -/
def Medication.recommendedDosage (m : Medication) (age : ℤ) (weight : ℚ) : ℚ :=
  let r := min (weight * m.maximumDosageAllowedPerKg) m.dosageLimit
  if age ≤ 12 then r / 2 else r

/-- Embeds `Medication.compareStrength` (Q2.py lines 48–58). -/
def Medication.compareStrength (m other : Medication) : ℤ :=
  if m.dosageLimit = other.dosageLimit then 0
  else if m.dosageLimit < other.dosageLimit then 1
  else -1

/-- Embeds class `AgeLimitedMedication` (Q2.py lines 143–171): a
`Medication` plus `minimumAge`. -/
structure AgeLimitedMedication where
  toMedication : Medication
  minimumAge : ℤ
deriving DecidableEq

/-- Embeds `AgeLimitedMedication.recommendedDosage` (Q2.py lines 161–168):
0 when `age < minimumAge`, else the base class computation. -/
def AgeLimitedMedication.recommendedDosage (m : AgeLimitedMedication)
    (age : ℤ) (weight : ℚ) : ℚ :=
  if age < m.minimumAge then 0
  else m.toMedication.recommendedDosage age weight

/-- Embeds class `PrescribedItem` (Q2.py lines 65–108): one medication with
a dosage/frequency/duration regimen. -/
structure PrescribedItem where
  medication : Medication
  dosage : ℚ
  frequencyPerDay : ℤ
  duration : ℤ
deriving DecidableEq

/-- Embeds `PrescribedItem.quantityDispensed` (Q2.py lines 96–99):
`dosage * frequencyPerDay * duration`. -/
def PrescribedItem.quantityDispensed (p : PrescribedItem) : ℚ :=
  p.dosage * p.frequencyPerDay * p.duration

/-- Embeds `PrescribedItem.dosageStrength` (Q2.py lines 101–104):
`dosage // medication.dosageLimit`, Python float floor division.  The source
has no guard: a zero `dosageLimit` raises `ZeroDivisionError`, modelled as
`none`; otherwise the result is the floor of the exact quotient. -/
def PrescribedItem.dosageStrength (p : PrescribedItem) : Option ℚ :=
  if p.medication.dosageLimit = 0 then none
  else some ((⌊p.dosage / p.medication.dosageLimit⌋ : ℤ) : ℚ)

/-- Embeds class `Clinic` (Q2.py lines 111–140).  The Python `dict` keyed by
medication code is modelled as an insertion-ordered association list with
unique keys. -/
structure Clinic where
  medicationList : List (String × Medication)
deriving DecidableEq

/-- Embeds `Clinic.__init__` (Q2.py lines 112–113): the `medicationList`
constructor argument is never read; the registry starts empty.  The argument
is kept (at an arbitrary type) to model the ignored parameter. -/
def Clinic.init {α : Type} (_medicationListArg : α) : Clinic :=
  ⟨[]⟩

/-- Embeds `Clinic.searchMedicationByCode` (Q2.py lines 115–121): exact key
lookup, `None` when absent. -/
def Clinic.searchMedicationByCode (c : Clinic) (code : String) : Option Medication :=
  c.medicationList.lookup code

/-- Embeds `Clinic.addMedication` (Q2.py lines 123–131): insert keyed by
`medication.code` unless the code is already a key; returns the Python
boolean result together with the updated registry. -/
def Clinic.addMedication (c : Clinic) (m : Medication) : Bool × Clinic :=
  if (c.medicationList.lookup m.code).isSome then (false, c)
  else (true, ⟨c.medicationList ++ [(m.code, m)]⟩)

/-- Embeds `Medication.__str__` (Q2.py lines 60–62).  Numeric fields are
rendered via `toString` on the exact rationals; the claims only inspect this
rendering on an empty registry. -/
def Medication.str (m : Medication) : String :=
  m.code ++ " " ++ m.name ++ "\tMax dose/kg: " ++ toString m.maximumDosageAllowedPerKg
    ++ "mg\tDose Limit: " ++ toString m.dosageLimit
    ++ "mg\tRate type: " ++ toString m.rateType

/-- Stable insertion of a medication into a list sorted ascending by `code`;
together with `sortByCode` this embeds the
`medList.sort(key=Medication.compareByMedicationCode)` call (Q2.py line 137). -/
def insertByCode (m : Medication) : List Medication → List Medication
  | [] => [m]
  | x :: xs => if m.code ≤ x.code then m :: x :: xs else x :: insertByCode m xs

/-- Sort medications ascending by `code` (Q2.py line 137). -/
def sortByCode (l : List Medication) : List Medication :=
  l.foldr insertByCode []

/-- Embeds `Clinic.medicationStr` (Q2.py lines 133–140): render the
registry's values sorted by code, one `str(m)` plus newline per medication. -/
def Clinic.medicationStr (c : Clinic) : String :=
  (sortByCode (c.medicationList.map Prod.snd)).foldl
    (fun medStr m => medStr ++ m.str ++ "\n") ""

/-- Which concrete `Visit` subclass an instance belongs to; drives the
polymorphic dispatch of `getRatePerPrescriptionItem`. -/
inductive VisitKind
  | corporateK
  | privateK
deriving DecidableEq

/-- Embeds the state of a `Visit` instance (Q2.py lines 174–245).  After a
subclass constructor runs, `consultRate` is an instance attribute (set via
`setConsultRate`), so it is a field here; `companyRef` is present exactly on
`CorporateVisit` instances. -/
structure Visit where
  kind : VisitKind
  visitId : ℤ
  visitDate : String
  patientWeight : ℚ
  prescribedItemList : List PrescribedItem
  total : ℚ
  consultRate : ℚ
  companyRef : Option String
deriving DecidableEq

/-- Class attribute `Visit._consultRate = 35` (Q2.py line 176); also what
`PrivateVisit._consultRate` resolves to, since `PrivateVisit` declares none. -/
def Visit.consultRateClassAttr : ℚ := 35

/-- Class attribute `CorporateVisit._consultRate = 20` (Q2.py line 251). -/
def CorporateVisit.consultRateClassAttr : ℚ := 20

/-- Embeds `CorporateVisit.getRatePerPrescriptionItem` (Q2.py lines 258–264):
`rateType * 0.1` for tier 1–3, `rateType * 0.075` above 3, else 0. -/
def CorporateVisit.getRatePerPrescriptionItem (rateType : ℤ) : ℚ :=
  if rateType ≤ 3 ∧ rateType ≥ 1 then (rateType : ℚ) * 0.1
  else if rateType > 3 then (rateType : ℚ) * 0.075
  else 0

/-- Embeds `PrivateVisit.getRatePerPrescriptionItem` (Q2.py lines 277–278):
`rateType * 0.1` for every tier. -/
def PrivateVisit.getRatePerPrescriptionItem (rateType : ℤ) : ℚ :=
  (rateType : ℚ) * 0.1

/-- Polymorphic dispatch of the abstract `getRatePerPrescriptionItem`
(Q2.py line 232) to the concrete subclass override. -/
def Visit.getRatePerPrescriptionItem (v : Visit) (rateType : ℤ) : ℚ :=
  match v.kind with
  | .corporateK => CorporateVisit.getRatePerPrescriptionItem rateType
  | .privateK => PrivateVisit.getRatePerPrescriptionItem rateType

/-- Embeds `CorporateVisit.__init__` (Q2.py lines 253–256): runs the base
constructor against the shared `_nextId` counter (passed and returned
explicitly), then sets the instance consult rate to 20. -/
def CorporateVisit.init (visitDate : String) (patientWeight : ℚ)
    (companyRef : String) (nextId : ℤ) : Visit × ℤ :=
  (⟨.corporateK, nextId, visitDate, patientWeight, [], 0,
    CorporateVisit.consultRateClassAttr, some companyRef⟩, nextId + 1)

/-- Embeds `PrivateVisit.__init__` (Q2.py lines 273–275): base constructor
against the shared counter, then sets the instance consult rate to
`PrivateVisit._consultRate`, which is the inherited 35. -/
def PrivateVisit.init (visitDate : String) (patientWeight : ℚ)
    (nextId : ℤ) : Visit × ℤ :=
  (⟨.privateK, nextId, visitDate, patientWeight, [], 0,
    Visit.consultRateClassAttr, none⟩, nextId + 1)

/-- Embeds `Visit.searchPrescribedItem` (Q2.py lines 205–209): first held
item whose medication code matches, `None` when absent. -/
def Visit.searchPrescribedItem (v : Visit) (code : String) : Option PrescribedItem :=
  v.prescribedItemList.find? (fun prescribedItem => prescribedItem.medication.code == code)

/-- Embeds `Visit.addPrescribedItem` (Q2.py lines 211–216): reject when an
item with the same medication code is already held, else append. -/
def Visit.addPrescribedItem (v : Visit) (prescribedItem : PrescribedItem) :
    Bool × Visit :=
  if v.prescribedItemList.any
      (fun item => item.medication.code == prescribedItem.medication.code) then
    (false, v)
  else
    (true, { v with prescribedItemList := v.prescribedItemList ++ [prescribedItem] })

/-- Embeds the dynamic behaviour of `Visit.removePrescribedItem`
(Q2.py lines 218–224).  The body is

  for prescribedItem in self._prescribedItemList:
      for index in prescribedItem:
          ...
  return False

`PrescribedItem` defines no iteration protocol, so `for index in
prescribedItem` raises `TypeError` as soon as the outer loop has a first
element: on a non-empty list the call raises, and only on an empty list does
it reach `return False`.  The raise is modelled as `Except.error`. -/
def Visit.removePrescribedItem (v : Visit) (_code : String) :
    Except String (Bool × Visit) :=
  match v.prescribedItemList with
  | [] => .ok (false, v)
  | _ :: _ => .error "TypeError: PrescribedItem object is not iterable"

/-- Embeds `Visit.getPrescriptionCost` (Q2.py lines 235–239): sum over held
items of `quantityDispensed * rate(medication.rateType)`. -/
def Visit.getPrescriptionCost (v : Visit) : ℚ :=
  v.prescribedItemList.foldl
    (fun cost item =>
      cost + item.quantityDispensed * v.getRatePerPrescriptionItem item.medication.rateType)
    0

/-- Embeds `Visit.setTotal` (Q2.py lines 241–242):
`total := consultRate + getPrescriptionCost()`. -/
def Visit.setTotal (v : Visit) : Visit :=
  { v with total := v.consultRate + v.getPrescriptionCost }

/-- One construction request, as issued by a caller of a `Visit` subclass
constructor. -/
inductive VisitReq
  | corporateReq (visitDate : String) (patientWeight : ℚ) (companyRef : String)
  | privateReq (visitDate : String) (patientWeight : ℚ)

/-- Dispatch one construction request against the shared counter. -/
def constructVisit : VisitReq → ℤ → Visit × ℤ
  | .corporateReq d w c, n => CorporateVisit.init d w c n
  | .privateReq d w, n => PrivateVisit.init d w n

/-- Run a sequence of `Visit` constructions threading the process-wide
`Visit._nextId` counter (initially 1, Q2.py line 175), returning the
constructed visits in order together with the final counter value. -/
def runConstructions : List VisitReq → ℤ → List Visit × ℤ
  | [], n => ([], n)
  | r :: rs, n =>
    let p := constructVisit r n
    let q := runConstructions rs p.2
    (p.1 :: q.1, q.2)

/-- The medication `DM01` of the specification scenario (Q2.py line 297). -/
def DM01 : Medication :=
  ⟨"DM01", "Dex-2 trimethorphan-0", 0.25, 15, 2⟩

/-- The medication underlying `ZE01` (Q2.py line 285). -/
def ZE01med : Medication :=
  ⟨"ZE01", "Zoledra-Enic1", 0.08, 4, 4⟩

/-- The age-limited medication `ZE01` (Q2.py line 285), minimum age 16. -/
def ZE01 : AgeLimitedMedication :=
  ⟨ZE01med, 16⟩

/-- The prescribed item `PI1` of the scenario (Q2.py line 302):
10 mg, 3 times per day, for 5 days, over `DM01`. -/
def PI1 : PrescribedItem := ⟨DM01, 10, 3, 5⟩

/-- A `CorporateVisit` holding exactly the scenario item `PI1`. -/
def corpVisitScenario : Visit :=
  ((CorporateVisit.init "2020-01-20" 65.5 "C0123" 1).1.addPrescribedItem PI1).2

/-- A `PrivateVisit` holding exactly the scenario item `PI1`. -/
def privVisitScenario : Visit :=
  ((PrivateVisit.init "2020-03-20" 65.5 2).1.addPrescribedItem PI1).2

/-- A clinic whose registry holds exactly `DM01`. -/
def clinicScenario : Clinic :=
  ((Clinic.init (0 : ℕ)).addMedication DM01).2

/-- Helper: every subclass constructor stamps the visit with the counter
value it was given. -/
theorem constructVisit_visitId (r : VisitReq) (n : ℤ) :
    (constructVisit r n).1.visitId = n := by
  cases r <;> rfl

/-- Helper: every subclass constructor advances the shared counter by
exactly one. -/
theorem constructVisit_nextId (r : VisitReq) (n : ℤ) :
    (constructVisit r n).2 = n + 1 := by
  cases r <;> rfl

/-- Helper: a run of constructions advances the shared counter by the number
of constructions. -/
theorem runConstructions_nextId (reqs : List VisitReq) (n : ℤ) :
    (runConstructions reqs n).2 = n + reqs.length := by
  induction reqs generalizing n with
  | nil => simp [runConstructions]
  | cons r rs ih =>
    simp only [runConstructions, ih, constructVisit_nextId, List.length_cons]
    omega

/-- Helper: every visit constructed from counter value `n` gets an id of at
least `n`. -/
theorem runConstructions_visitId_ge (reqs : List VisitReq) (n : ℤ) :
    ∀ v ∈ (runConstructions reqs n).1, n ≤ v.visitId := by
  induction reqs generalizing n with
  | nil => simp [runConstructions]
  | cons r rs ih =>
    intro v hv
    simp only [runConstructions, List.mem_cons] at hv
    rcases hv with hv | hv
    · rw [hv, constructVisit_visitId]
    · have h2 := ih (constructVisit r n).2 v hv
      rw [constructVisit_nextId] at h2
      omega

/-- C1 counterexample: on the spec's concrete scenario the PrivateVisit part
of the claim is false — the private prescription cost is not 15.0 (it is
30.0, since the private rate is `rateType * 0.1 = 0.2` at `rateType = 2`),
so the claimed pair (cost 15.0, total 50.0) fails. -/
theorem privateVisit_scenario_cost_not_15 :
    ¬ (privVisitScenario.getPrescriptionCost = 15 ∧ privVisitScenario.setTotal.total = 50) := by
  intro h
  have hc : privVisitScenario.getPrescriptionCost = 30 := by
    norm_num [privVisitScenario, Visit.getPrescriptionCost, Visit.addPrescribedItem,
      PrivateVisit.init, Visit.getRatePerPrescriptionItem,
      PrivateVisit.getRatePerPrescriptionItem, PrescribedItem.quantityDispensed, PI1, DM01]
  rw [hc] at h
  exact absurd h.1 (by norm_num)

/-- C1 (amended): end-to-end billing on the spec's concrete scenario.  For
`DM01` (maxDosagePerKg 0.25, dosageLimit 15.0, rateType 2) and the item
(dosage 10, frequency 3, duration 5): `quantityDispensed` is 150 and
`dosageStrength` is 0; the CorporateVisit holding exactly this item has
prescription cost 30.0 and, after `setTotal`, total 50.0 (consult rate 20);
the PrivateVisit holding exactly this item has prescription cost 30.0
(150 · 2 · 0.1) and, after `setTotal`, total 65.0 (consult rate 35). -/
theorem endToEnd_billing_scenario :
    PI1.quantityDispensed = 150 ∧
    PI1.dosageStrength = some 0 ∧
    corpVisitScenario.getPrescriptionCost = 30 ∧
    corpVisitScenario.consultRate = 20 ∧
    corpVisitScenario.setTotal.total = 50 ∧
    privVisitScenario.getPrescriptionCost = 30 ∧
    privVisitScenario.consultRate = 35 ∧
    privVisitScenario.setTotal.total = 65 := by
  refine ⟨?_, ?_, ?_, ?_, ?_, ?_, ?_, ?_⟩ <;>
    norm_num [Visit.setTotal, corpVisitScenario, privVisitScenario,
      Visit.getPrescriptionCost, Visit.addPrescribedItem,
      CorporateVisit.init, PrivateVisit.init,
      CorporateVisit.consultRateClassAttr, Visit.consultRateClassAttr,
      Visit.getRatePerPrescriptionItem, CorporateVisit.getRatePerPrescriptionItem,
      PrivateVisit.getRatePerPrescriptionItem,
      PrescribedItem.quantityDispensed, PrescribedItem.dosageStrength, PI1, DM01]

/-- C2: the rate-tier policy per visit variant.  For every integer rate
type, the corporate rate is `rateType * 0.1` on tier 1–3, `rateType * 0.075`
above tier 3, and 0 below tier 1; the private rate is `rateType * 0.1`
regardless of tier. -/
theorem rate_tier_policy (rateType : ℤ) :
    (1 ≤ rateType → rateType ≤ 3 →
        CorporateVisit.getRatePerPrescriptionItem rateType = (rateType : ℚ) * 0.1) ∧
    (rateType > 3 →
        CorporateVisit.getRatePerPrescriptionItem rateType = (rateType : ℚ) * 0.075) ∧
    (rateType < 1 → CorporateVisit.getRatePerPrescriptionItem rateType = 0) ∧
    PrivateVisit.getRatePerPrescriptionItem rateType = (rateType : ℚ) * 0.1 := by
  unfold CorporateVisit.getRatePerPrescriptionItem PrivateVisit.getRatePerPrescriptionItem
  refine ⟨?_, ?_, ?_, rfl⟩
  · intro h1 h2
    rw [if_pos ⟨h2, h1⟩]
  · intro h
    rw [if_neg (by omega), if_pos h]
  · intro h
    rw [if_neg (by omega), if_neg (by omega)]

/-- C2 witness: the policy evaluated on one representative of each tier. -/
theorem rate_tier_policy_witness :
    CorporateVisit.getRatePerPrescriptionItem 2 = 0.2 ∧
    CorporateVisit.getRatePerPrescriptionItem 5 = 0.375 ∧
    CorporateVisit.getRatePerPrescriptionItem 0 = 0 ∧
    PrivateVisit.getRatePerPrescriptionItem (-4) = -0.4 := by
  refine ⟨?_, ?_, ?_, ?_⟩
  · rw [(rate_tier_policy 2).1 (by norm_num) (by norm_num)]; norm_num
  · rw [(rate_tier_policy 5).2.1 (by norm_num)]; norm_num
  · exact (rate_tier_policy 0).2.2.1 (by norm_num)
  · rw [(rate_tier_policy (-4)).2.2.2]; norm_num

/-- C3: for every Medication, age and weight, `recommendedDosage` is
`min(weight * maxDosagePerKg, dosageLimit)`, halved when `age ≤ 12`; the
function is total, with no error path for zero or negative weight. -/
theorem recommendedDosage_spec (m : Medication) (age : ℤ) (weight : ℚ) :
    (age ≤ 12 → m.recommendedDosage age weight
        = min (weight * m.maximumDosageAllowedPerKg) m.dosageLimit / 2) ∧
    (12 < age → m.recommendedDosage age weight
        = min (weight * m.maximumDosageAllowedPerKg) m.dosageLimit) := by
  unfold Medication.recommendedDosage
  constructor
  · intro h
    rw [if_pos h]
  · intro h
    rw [if_neg (by omega)]

/-- C3 witness: `DM01` at age 10 (≤ 12) and weight 4. -/
theorem recommendedDosage_spec_witness :
    (10 : ℤ) ≤ 12 ∧
    DM01.recommendedDosage 10 4
        = min (4 * DM01.maximumDosageAllowedPerKg) DM01.dosageLimit / 2 :=
  ⟨by norm_num, (recommendedDosage_spec DM01 10 4).1 (by norm_num)⟩

/-- C4: an AgeLimitedMedication recommends 0 below the minimum age and
otherwise exactly the base Medication computation — including the halving
when `minimumAge ≤ age ≤ 12`. -/
theorem ageLimited_recommendedDosage_spec (m : AgeLimitedMedication) (age : ℤ) (weight : ℚ) :
    (age < m.minimumAge → m.recommendedDosage age weight = 0) ∧
    (m.minimumAge ≤ age →
        m.recommendedDosage age weight = m.toMedication.recommendedDosage age weight) ∧
    (m.minimumAge ≤ age → age ≤ 12 → m.recommendedDosage age weight
        = min (weight * m.toMedication.maximumDosageAllowedPerKg)
            m.toMedication.dosageLimit / 2) := by
  unfold AgeLimitedMedication.recommendedDosage
  refine ⟨?_, ?_, ?_⟩
  · intro h
    rw [if_pos h]
  · intro h
    rw [if_neg (by omega)]
  · intro h h12
    rw [if_neg (by omega)]
    unfold Medication.recommendedDosage
    rw [if_pos h12]

/-- C4 witness: `ZE01` (minimum age 16) yields 0 at age 10 and delegates to
the base computation at age 20. -/
theorem ageLimited_recommendedDosage_spec_witness :
    (10 : ℤ) < ZE01.minimumAge ∧ ZE01.recommendedDosage 10 50 = 0 ∧
    ZE01.minimumAge ≤ 20 ∧
    ZE01.recommendedDosage 20 50 = ZE01.toMedication.recommendedDosage 20 50 :=
  ⟨by norm_num [ZE01], (ageLimited_recommendedDosage_spec ZE01 10 50).1 (by norm_num [ZE01]),
    by norm_num [ZE01],
    (ageLimited_recommendedDosage_spec ZE01 20 50).2.1 (by norm_num [ZE01])⟩

/-- C5: evaluation of `removePrescribedItem` at the failing input.  On a
visit holding one item with code "DM01", `removePrescribedItem("DM01")`
raises `TypeError` (the inner loop iterates a non-iterable `PrescribedItem`)
instead of removing the item and returning true; only on an empty item list
does the call return false. -/
theorem removePrescribedItem_raises_on_nonempty :
    corpVisitScenario.removePrescribedItem "DM01"
        = Except.error "TypeError: PrescribedItem object is not iterable" ∧
    (CorporateVisit.init "2020-01-20" 65.5 "C0123" 1).1.removePrescribedItem "DM01"
        = Except.ok (false, (CorporateVisit.init "2020-01-20" 65.5 "C0123" 1).1) :=
  ⟨rfl, rfl⟩

/-- C6: duplicate-code insertion is rejected as a boolean with no mutation,
for the clinic registry and for a visit's prescribed items; otherwise the
new entry is appended and true is returned. -/
theorem duplicate_code_insertion_rejected (c : Clinic) (m : Medication)
    (v : Visit) (p : PrescribedItem) :
    ((c.searchMedicationByCode m.code).isSome = true → c.addMedication m = (false, c)) ∧
    (c.searchMedicationByCode m.code = none →
        c.addMedication m = (true, ⟨c.medicationList ++ [(m.code, m)]⟩)) ∧
    ((∃ item ∈ v.prescribedItemList, item.medication.code = p.medication.code) →
        v.addPrescribedItem p = (false, v)) ∧
    ((∀ item ∈ v.prescribedItemList, item.medication.code ≠ p.medication.code) →
        v.addPrescribedItem p =
          (true, { v with prescribedItemList := v.prescribedItemList ++ [p] })) := by
  refine ⟨?_, ?_, ?_, ?_⟩
  · intro h
    unfold Clinic.searchMedicationByCode at h
    unfold Clinic.addMedication
    rw [if_pos h]
  · intro h
    unfold Clinic.searchMedicationByCode at h
    unfold Clinic.addMedication
    rw [if_neg (by simp [h])]
  · rintro ⟨item, hmem, hcode⟩
    unfold Visit.addPrescribedItem
    rw [if_pos (List.any_eq_true.mpr ⟨item, hmem, by simpa using hcode⟩)]
  · intro h
    unfold Visit.addPrescribedItem
    rw [if_neg ?_]
    intro hc
    obtain ⟨item, hmem, hcode⟩ := List.any_eq_true.mp hc
    exact h item hmem (by simpa using hcode)

/-- C6 witness: re-adding `DM01` to a clinic already holding it is rejected
without mutation; adding it to a fresh clinic appends it; re-adding `PI1` to
a visit already holding it is rejected without mutation. -/
theorem duplicate_code_insertion_rejected_witness :
    clinicScenario.addMedication DM01 = (false, clinicScenario) ∧
    (Clinic.init (0 : ℕ)).addMedication DM01 = (true, ⟨[("DM01", DM01)]⟩) ∧
    corpVisitScenario.addPrescribedItem PI1 = (false, corpVisitScenario) := by
  refine ⟨?_, ?_, ?_⟩
  · exact (duplicate_code_insertion_rejected clinicScenario DM01
      corpVisitScenario PI1).1 (by rfl)
  · exact (duplicate_code_insertion_rejected (Clinic.init (0 : ℕ)) DM01
      corpVisitScenario PI1).2.1 (by rfl)
  · exact (duplicate_code_insertion_rejected clinicScenario DM01
      corpVisitScenario PI1).2.2.1 ⟨PI1, by simp [corpVisitScenario, Visit.addPrescribedItem,
        CorporateVisit.init], rfl⟩

/-- C7: `compareStrength` takes values in {-1, 0, 1}; it is 0 exactly when
the dosage limits are equal, 1 when `self` has the strictly smaller limit,
-1 when the other does; and it is antisymmetric. -/
theorem compareStrength_spec (a b : Medication) :
    (a.compareStrength b = 0 ∨ a.compareStrength b = 1 ∨ a.compareStrength b = -1) ∧
    (a.compareStrength b = 0 ↔ a.dosageLimit = b.dosageLimit) ∧
    (a.dosageLimit < b.dosageLimit → a.compareStrength b = 1) ∧
    (b.dosageLimit < a.dosageLimit → a.compareStrength b = -1) ∧
    a.compareStrength b = -(b.compareStrength a) := by
  rcases lt_trichotomy a.dosageLimit b.dosageLimit with h | h | h
  · have e1 : a.compareStrength b = 1 := by
      simp [Medication.compareStrength, h, h.ne]
    have e2 : b.compareStrength a = -1 := by
      simp [Medication.compareStrength, h.ne', not_lt.mpr h.le]
    refine ⟨by simp [e1], by simp [e1, h.ne], fun _ => e1,
      fun h2 => absurd h2 (not_lt.mpr h.le), by simp [e1, e2]⟩
  · have e1 : a.compareStrength b = 0 := by
      simp [Medication.compareStrength, h]
    have e2 : b.compareStrength a = 0 := by
      simp [Medication.compareStrength, h.symm]
    refine ⟨by simp [e1], by simp [e1, h], fun h2 => absurd h2 (by simp [h]),
      fun h2 => absurd h2 (by simp [h]), by simp [e1, e2]⟩
  · have e1 : a.compareStrength b = -1 := by
      simp [Medication.compareStrength, h.ne', not_lt.mpr h.le]
    have e2 : b.compareStrength a = 1 := by
      simp [Medication.compareStrength, h, h.ne]
    refine ⟨by simp [e1], by simp [e1, h.ne'], fun h2 => absurd h2 (not_lt.mpr h.le),
      fun _ => e1, by simp [e1, e2]⟩

/-- C7 witness: `ZE01med` (limit 4) against `DM01` (limit 15) in both
orders. -/
theorem compareStrength_spec_witness :
    ZE01med.dosageLimit < DM01.dosageLimit ∧
    ZE01med.compareStrength DM01 = 1 ∧
    DM01.compareStrength ZE01med = -1 :=
  ⟨by norm_num [ZE01med, DM01],
    (compareStrength_spec ZE01med DM01).2.2.1 (by norm_num [ZE01med, DM01]),
    (compareStrength_spec DM01 ZE01med).2.2.2.1 (by norm_num [ZE01med, DM01])⟩

/-- C8: in any sequence of Visit constructions threading the process-wide
counter, the assigned visit ids are pairwise strictly increasing in
construction order (so each later visit gets a strictly larger id than every
earlier one and no id is reused), and the counter is incremented exactly
once per construction. -/
theorem visitId_strict_monotone (reqs : List VisitReq) (n : ℤ) :
    ((runConstructions reqs n).1.map Visit.visitId).Pairwise (fun a b => a < b) ∧
    (runConstructions reqs n).2 = n + reqs.length := by
  refine ⟨?_, runConstructions_nextId reqs n⟩
  induction reqs generalizing n with
  | nil => simp [runConstructions]
  | cons r rs ih =>
    simp only [runConstructions, List.map_cons, List.pairwise_cons]
    refine ⟨?_, ih (constructVisit r n).2⟩
    intro b hb
    simp only [List.mem_map] at hb
    obtain ⟨v, hv, rfl⟩ := hb
    have h2 := runConstructions_visitId_ge rs (constructVisit r n).2 v hv
    rw [constructVisit_nextId] at h2
    rw [constructVisit_visitId]
    omega

/-- C9: with a nonzero dosage limit, `dosageStrength` succeeds and equals
the floor of `dosage / dosageLimit`; with a zero dosage limit the unguarded
division fails (no special-casing in the operation). -/
theorem dosageStrength_spec (p : PrescribedItem) :
    (p.medication.dosageLimit ≠ 0 →
        p.dosageStrength = some ((⌊p.dosage / p.medication.dosageLimit⌋ : ℤ) : ℚ)) ∧
    (p.medication.dosageLimit = 0 → p.dosageStrength = none) := by
  unfold PrescribedItem.dosageStrength
  constructor
  · intro h
    rw [if_neg h]
  · intro h
    rw [if_pos h]

/-- C9 witness: the scenario item `PI1`, whose medication has dosage limit
15 ≠ 0. -/
theorem dosageStrength_spec_witness :
    PI1.medication.dosageLimit ≠ 0 ∧
    PI1.dosageStrength = some ((⌊PI1.dosage / PI1.medication.dosageLimit⌋ : ℤ) : ℚ) :=
  ⟨by norm_num [PI1, DM01], (dosageStrength_spec PI1).1 (by norm_num [PI1, DM01])⟩

/-- C10: the Clinic constructor ignores its `medicationList` argument — for
every argument of every type, a fresh clinic has an empty registry, every
lookup misses, and `medicationStr` renders nothing. -/
theorem clinic_init_ignores_argument {α : Type} (arg : α) (code : String) :
    (Clinic.init arg).searchMedicationByCode code = none ∧
    (Clinic.init arg).medicationStr = "" ∧
    (Clinic.init arg).medicationList = [] :=
  ⟨rfl, rfl, rfl⟩
